import Mathlib

/-!
Shallow embedding of the Human-Design ephemeris core (`src/index.js`):
the gate mapper (`longitudeToGate`), the design-epoch solver
(`findSunAtLongitude`) and the chart builder (`calculateChart`).
JavaScript numbers are modelled as exact rationals; the JavaScript `%`
operator (sign of the dividend, truncated quotient) is modelled by `jsMod`.
The ephemeris provider (`sweph.calc_ut`) is a parameter: a function from a
time value and a body to a result record carrying the error flag the code
tests (`calc.error`) and the longitude it reads (`calc.data[0]`).
-/

/-- Truncation toward zero of a rational, as JavaScript division underlying
the `%` operator truncates. -/
def ratTrunc (q : ℚ) : ℤ :=
  if q < 0 then -(⌊-q⌋) else ⌊q⌋

/-- JavaScript remainder `x % y`: `x - y * trunc(x / y)` (sign follows the
dividend). -/
def jsMod (x y : ℚ) : ℚ :=
  x - y * (ratTrunc (x / y) : ℚ)

/-- The repeated normalisation idiom of the source,
`((x % 360) + 360) % 360` (lines 48, 92 and 128 of `src/index.js`). -/
def normalize360 (x : ℚ) : ℚ :=
  jsMod (jsMod x 360 + 360) 360

/-- The fixed 64-entry gate wheel permutation (`GATE_ORDER`, lines 29-34). -/
def GATE_ORDER : List ℕ :=
  [41, 19, 13, 49, 30, 55, 37, 63, 22, 36, 25, 17, 21, 51, 42, 3,
   27, 24, 2, 23, 8, 20, 16, 35, 45, 12, 15, 52, 39, 53, 62, 56,
   31, 33, 7, 4, 29, 59, 40, 64, 47, 6, 46, 18, 48, 57, 32, 50,
   28, 44, 1, 43, 14, 34, 9, 5, 26, 11, 10, 58, 38, 54, 61, 60]

def DEGREES_PER_GATE : ℚ := 5.625

def DEGREES_PER_LINE : ℚ := 0.9375

def DEGREES_PER_COLOR : ℚ := 0.15625

def DEGREES_PER_TONE : ℚ := 0.026041667

def DEGREES_PER_BASE : ℚ := 0.005208333

/-- The calibrated wheel offset (`HD_OFFSET`, line 44). -/
def HD_OFFSET : ℚ := 58.93

/-- JavaScript array subscripting `GATE_ORDER[i]`: `none` models the
`undefined` an out-of-range index would give. -/
def gateAt (i : ℤ) : Option ℕ :=
  if 0 ≤ i then GATE_ORDER.get? i.toNat else none

/-- The normalised longitude `deg` of `longitudeToGate` (line 48). -/
def normalizeDeg (longitude : ℚ) : ℚ :=
  normalize360 longitude

/-- The offset-adjusted wheel position `(deg + HD_OFFSET) % 360`
(line 51). -/
def wheelPosOf (longitude : ℚ) : ℚ :=
  jsMod (normalizeDeg longitude + HD_OFFSET) 360

/-- The 64-arc gate index `Math.floor(wheelPos / DEGREES_PER_GATE)`
(line 54). -/
def gateIndexOf (longitude : ℚ) : ℤ :=
  ⌊wheelPosOf longitude / DEGREES_PER_GATE⌋

/-- The record `longitudeToGate` returns (lines 70-79).  `gate` is an
`Option` because `GATE_ORDER[i]` could be `undefined` for an index outside
the table. -/
structure GateCode where
  gate : Option ℕ
  line : ℤ
  color : ℤ
  tone : ℤ
  base : ℤ
  longitude : ℚ
  wheelPosition : ℚ
  formatted : String
  deriving DecidableEq

/-- Rendering of the gate number in the template string of line 78
(JavaScript prints `undefined` for a missing entry). -/
def gateStr : Option ℕ → String
  | some n => toString n
  | none => "undefined"

/-- `longitudeToGate` (lines 46-80): mixed-radix decomposition of a
longitude into gate, line, color, tone and base. -/
def longitudeToGate (longitude : ℚ) : GateCode :=
  let deg := normalizeDeg longitude
  let wheelPos := wheelPosOf longitude
  let gate := gateAt (gateIndexOf longitude)
  let posInGate := jsMod wheelPos DEGREES_PER_GATE
  let line := ⌊posInGate / DEGREES_PER_LINE⌋ + 1
  let posInLine := jsMod posInGate DEGREES_PER_LINE
  let color := ⌊posInLine / DEGREES_PER_COLOR⌋ + 1
  let posInColor := jsMod posInLine DEGREES_PER_COLOR
  let tone := ⌊posInColor / DEGREES_PER_TONE⌋ + 1
  let posInTone := jsMod posInColor DEGREES_PER_TONE
  let base := ⌊posInTone / DEGREES_PER_BASE⌋ + 1
  ⟨gate, min line 6, min color 6, min tone 6, min base 5, deg, wheelPos,
    gateStr gate ++ "." ++ toString (min line 6) ++ "." ++
      toString (min color 6) ++ "." ++ toString (min tone 6) ++ "." ++
      toString (min base 5)⟩

/-- The tracked bodies (keys of `PLANETS`, lines 12-25) together with the
two derived pseudo-bodies the chart adds. -/
inductive Body where
  | Sun
  | Moon
  | Mercury
  | Venus
  | Mars
  | Jupiter
  | Saturn
  | Uranus
  | Neptune
  | Pluto
  | NorthNode
  | Chiron
  | SouthNode
  | Earth
  deriving DecidableEq, Fintype

/-- Iteration order of `Object.entries(PLANETS)` (insertion order of the
object literal, lines 12-25). -/
def PLANETS : List Body :=
  [Body.Sun, Body.Moon, Body.Mercury, Body.Venus, Body.Mars, Body.Jupiter,
   Body.Saturn, Body.Uranus, Body.Neptune, Body.Pluto, Body.NorthNode,
   Body.Chiron]

/-- What the code reads off one `sweph.calc_ut` result: the `error` flag it
tests and `data[0]`, the ecliptic longitude. -/
structure CalcResult where
  error : Bool
  lon : ℚ
  deriving DecidableEq

/-- The ephemeris provider boundary: a deterministic function from a time
value and a body to a computation result. -/
abbrev Provider := ℚ → Body → CalcResult

/-- The sequential wrap of the signed difference into `[-180, 180]`
(lines 103-104): `if (diff > 180) diff -= 360; if (diff < -180) diff += 360`. -/
def wrapDiff (d : ℚ) : ℚ :=
  let d1 := if d > 180 then d - 360 else d
  if d1 < -180 then d1 + 360 else d1

/-- The `while (iterations < 200)` loop of `findSunAtLongitude`
(lines 98-113), by fuel; `none` means the budget ran out. -/
def findSunLoop (eph : ℚ → CalcResult) (targetLon direction : ℚ) :
    ℕ → ℚ → Option ℚ
  | 0, _ => none
  | Nat.succ n, jd =>
    let sunLon := (eph jd).lon
    let diff := wrapDiff (targetLon - sunLon)
    if |diff| < 0.0001 then some jd
    else findSunLoop eph targetLon direction n (jd + diff * direction)

/-- `findSunAtLongitude` (lines 91-117): normalise the target, iterate up
to 200 times, and on exhaustion fall back to `startJd - 88`. -/
def findSunAtLongitude (eph : ℚ → CalcResult) (targetLon startJd direction : ℚ) : ℚ :=
  (findSunLoop eph (normalize360 targetLon) direction 200 startJd).getD (startJd - 88)

/-- Updating one key of an epoch map, as `result.personality[name] = ...`
does. -/
def setBody (m : Body → Option GateCode) (b : Body) (g : GateCode) :
    Body → Option GateCode :=
  fun b2 => if b2 = b then some g else m b2

/-- One step of the per-body loop (lines 141-145 and 160-164): skip the
body when the provider flags an error, otherwise store its gate code. -/
def addBody (provider : Provider) (t : ℚ) (m : Body → Option GateCode)
    (b : Body) : Body → Option GateCode :=
  let r := provider t b
  if r.error then m else setBody m b (longitudeToGate r.lon)

/-- The per-body loop over `Object.entries(PLANETS)` at one epoch. -/
def epochPositions (provider : Provider) (t : ℚ) : Body → Option GateCode :=
  PLANETS.foldl (addBody provider t) (fun _ => none)

/-- The derived points of one epoch (lines 147-157 and 166-174): South Node
opposite the North Node when present, then Earth opposite the Sun when
present, both from the stored normalised longitudes. -/
def addDerived (m : Body → Option GateCode) : Body → Option GateCode :=
  let m1 :=
    match m Body.NorthNode with
    | some g => setBody m Body.SouthNode
        (longitudeToGate (jsMod (g.longitude + 180) 360))
    | none => m
  match m1 Body.Sun with
  | some g => setBody m1 Body.Earth
      (longitudeToGate (jsMod (g.longitude + 180) 360))
  | none => m1

/-- The result object of `calculateChart` (lines 133-138). -/
structure Chart where
  birthJulianDay : ℚ
  designJulianDay : ℚ
  personality : Body → Option GateCode
  design : Body → Option GateCode

/-- `calculateChart` (lines 119-177).  Note that lines 124-125 read
`birthSun.data[0]` without testing `birthSun.error`, so the (possibly
failed) Sun result's longitude always feeds the design-epoch search. -/
def calculateChart (provider : Provider) (jd : ℚ) : Chart :=
  let birthSunLon := (provider jd Body.Sun).lon
  let designSunLon := normalize360 (birthSunLon - 88)
  let designJd :=
    findSunAtLongitude (fun t => provider t Body.Sun) designSunLon jd (-1)
  ⟨jd, designJd, addDerived (epochPositions provider jd),
    addDerived (epochPositions provider designJd)⟩

/-! ### Arithmetic facts about `jsMod` and `normalize360` -/

theorem ratTrunc_of_nonneg {q : ℚ} (h : 0 ≤ q) : ratTrunc q = ⌊q⌋ := by
  rw [ratTrunc, if_neg (not_lt.mpr h)]

theorem jsMod_eq_fract {x y : ℚ} (hx : 0 ≤ x) (hy : 0 < y) :
    jsMod x y = y * Int.fract (x / y) := by
  have hq : 0 ≤ x / y := div_nonneg hx hy.le
  rw [jsMod, ratTrunc_of_nonneg hq, Int.fract, mul_sub, mul_comm y (x / y),
    div_mul_cancel₀ x (ne_of_gt hy)]

theorem jsMod_nonneg {x y : ℚ} (hx : 0 ≤ x) (hy : 0 < y) : 0 ≤ jsMod x y := by
  rw [jsMod_eq_fract hx hy]
  exact mul_nonneg hy.le (Int.fract_nonneg _)

theorem jsMod_lt {x y : ℚ} (hx : 0 ≤ x) (hy : 0 < y) : jsMod x y < y := by
  rw [jsMod_eq_fract hx hy]
  calc y * Int.fract (x / y) < y * 1 :=
        mul_lt_mul_of_pos_left (Int.fract_lt_one _) hy
    _ = y := mul_one y

theorem jsMod360_sub (x : ℚ) :
    ∃ m : ℤ, jsMod x 360 = x - 360 * m ∧ -360 < jsMod x 360 := by
  rcases le_or_lt 0 x with hx | hx
  · refine ⟨⌊x / 360⌋, ?_, ?_⟩
    · rw [jsMod, ratTrunc_of_nonneg (div_nonneg hx (by norm_num))]
    · have h := jsMod_nonneg hx (show (0:ℚ) < 360 by norm_num)
      linarith
  · have hq : x / 360 < 0 := div_neg_of_neg_of_pos hx (by norm_num)
    refine ⟨-⌊-(x / 360)⌋, ?_, ?_⟩
    · rw [jsMod, ratTrunc, if_pos hq]
    · rw [jsMod, ratTrunc, if_pos hq]
      have h1 : -(x / 360) - 1 < (⌊-(x / 360)⌋ : ℚ) := Int.sub_one_lt_floor _
      have h2 : -(x / 360) = -x / 360 := by ring
      push_cast
      nlinarith [h1]

theorem normalize360_eq (x : ℚ) : normalize360 x = 360 * Int.fract (x / 360) := by
  obtain ⟨m, hm, hbound⟩ := jsMod360_sub x
  rw [normalize360, hm]
  have h0 : (0:ℚ) ≤ x - 360 * m + 360 := by
    rw [hm] at hbound
    linarith
  rw [jsMod_eq_fract h0 (by norm_num)]
  congr 1
  have hdiv : (x - 360 * m + 360) / 360 = x / 360 + ((-m + 1 : ℤ) : ℚ) := by
    push_cast
    field_simp
    ring
  rw [hdiv, Int.fract_add_int]

theorem normalize360_nonneg (x : ℚ) : 0 ≤ normalize360 x := by
  rw [normalize360_eq]
  exact mul_nonneg (by norm_num) (Int.fract_nonneg _)

theorem normalize360_lt (x : ℚ) : normalize360 x < 360 := by
  rw [normalize360_eq]
  calc (360:ℚ) * Int.fract (x / 360) < 360 * 1 :=
        mul_lt_mul_of_pos_left (Int.fract_lt_one _) (by norm_num)
    _ = 360 := mul_one 360

theorem normalize360_add_int_mul (x : ℚ) (k : ℤ) :
    normalize360 (x + 360 * k) = normalize360 x := by
  rw [normalize360_eq, normalize360_eq]
  congr 1
  have hdiv : (x + 360 * (k : ℚ)) / 360 = x / 360 + (k : ℚ) := by
    field_simp
    ring
  rw [hdiv, Int.fract_add_int]

theorem normalize360_of_mem {x : ℚ} (h0 : 0 ≤ x) (h1 : x < 360) :
    normalize360 x = x := by
  rw [normalize360_eq, Int.fract_eq_self.mpr
    ⟨div_nonneg h0 (by norm_num), by rw [div_lt_one (by norm_num)]; exact h1⟩,
    mul_comm, div_mul_cancel₀ x (by norm_num)]

theorem normalize360_jsMod {x : ℚ} (hx : 0 ≤ x) :
    normalize360 (jsMod x 360) = normalize360 x := by
  have h360 : (0:ℚ) < 360 := by norm_num
  rw [normalize360_of_mem (jsMod_nonneg hx h360) (jsMod_lt hx h360),
    jsMod_eq_fract hx h360, normalize360_eq]

/-! ### Bounds on the wheel position, gate index and digits -/

theorem longitudeToGate_longitude (l : ℚ) :
    (longitudeToGate l).longitude = normalize360 l := rfl

theorem longitudeToGate_wheelPosition (l : ℚ) :
    (longitudeToGate l).wheelPosition = wheelPosOf l := rfl

theorem longitudeToGate_gate (l : ℚ) :
    (longitudeToGate l).gate = gateAt (gateIndexOf l) := rfl

theorem longitudeToGate_line (l : ℚ) : (longitudeToGate l).line =
    min (⌊jsMod (wheelPosOf l) DEGREES_PER_GATE / DEGREES_PER_LINE⌋ + 1) 6 := rfl

theorem longitudeToGate_color (l : ℚ) : (longitudeToGate l).color =
    min (⌊jsMod (jsMod (wheelPosOf l) DEGREES_PER_GATE) DEGREES_PER_LINE /
      DEGREES_PER_COLOR⌋ + 1) 6 := rfl

theorem longitudeToGate_tone (l : ℚ) : (longitudeToGate l).tone =
    min (⌊jsMod (jsMod (jsMod (wheelPosOf l) DEGREES_PER_GATE)
      DEGREES_PER_LINE) DEGREES_PER_COLOR / DEGREES_PER_TONE⌋ + 1) 6 := rfl

theorem longitudeToGate_base (l : ℚ) : (longitudeToGate l).base =
    min (⌊jsMod (jsMod (jsMod (jsMod (wheelPosOf l) DEGREES_PER_GATE)
      DEGREES_PER_LINE) DEGREES_PER_COLOR) DEGREES_PER_TONE /
      DEGREES_PER_BASE⌋ + 1) 5 := rfl

theorem wheelPosOf_nonneg (l : ℚ) : 0 ≤ wheelPosOf l := by
  refine jsMod_nonneg ?_ (by norm_num)
  have h := normalize360_nonneg l
  rw [normalizeDeg, HD_OFFSET]
  norm_num
  linarith

theorem wheelPosOf_lt (l : ℚ) : wheelPosOf l < 360 := by
  refine jsMod_lt ?_ (by norm_num)
  have h := normalize360_nonneg l
  rw [normalizeDeg, HD_OFFSET]
  norm_num
  linarith

theorem gateIndexOf_nonneg (l : ℚ) : 0 ≤ gateIndexOf l :=
  Int.floor_nonneg.mpr
    (div_nonneg (wheelPosOf_nonneg l) (by norm_num [DEGREES_PER_GATE]))

theorem gateIndexOf_lt (l : ℚ) : gateIndexOf l < 64 := by
  rw [gateIndexOf, Int.floor_lt]
  rw [div_lt_iff₀ (by norm_num [DEGREES_PER_GATE] : (0:ℚ) < DEGREES_PER_GATE)]
  have h := wheelPosOf_lt l
  rw [DEGREES_PER_GATE]
  norm_num
  linarith

theorem floor_digit_nonneg {p s : ℚ} (hp : 0 ≤ p) (hs : 0 < s) :
    1 ≤ ⌊p / s⌋ + 1 := by
  have h := Int.floor_nonneg.mpr (div_nonneg hp hs.le)
  omega

theorem floor_digit_lt {p s : ℚ} (c : ℤ) (hs : 0 < s) (hps : p < c * s) :
    ⌊p / s⌋ + 1 ≤ c := by
  have h : ⌊p / s⌋ < c := by
    rw [Int.floor_lt, div_lt_iff₀ hs]
    linarith
  omega

/-! ### The gate table -/

theorem gate_order_entry : ∀ k < 64, (GATE_ORDER.get? k).isSome = true ∧
    1 ≤ (GATE_ORDER.get? k).getD 0 ∧ (GATE_ORDER.get? k).getD 0 ≤ 64 := by
  decide

theorem gateAt_spec {i : ℤ} (h0 : 0 ≤ i) (h64 : i < 64) :
    ∃ n, gateAt i = some n ∧ 1 ≤ n ∧ n ≤ 64 := by
  have hk : i.toNat < 64 := by omega
  obtain ⟨hs, h1, h2⟩ := gate_order_entry i.toNat hk
  rcases ho : GATE_ORDER.get? i.toNat with _ | n
  · rw [ho] at hs
    simp at hs
  · rw [ho] at h1 h2
    exact ⟨n, by rw [gateAt, if_pos h0, ho], by simpa using h1, by simpa using h2⟩

/-! ### Solver lemmas -/

theorem findSunLoop_error_free (eph : ℚ → CalcResult) (t d : ℚ) :
    ∀ (n : ℕ) (jd : ℚ),
      findSunLoop (fun x => ⟨false, (eph x).lon⟩) t d n jd =
        findSunLoop eph t d n jd := by
  intro n
  induction n with
  | zero => intro jd; rfl
  | succ k ih =>
    intro jd
    rw [findSunLoop, findSunLoop]
    by_cases h : |wrapDiff (t - (eph jd).lon)| < 0.0001
    · rw [if_pos h, if_pos h]
    · rw [if_neg h, if_neg h, ih]

theorem findSunLoop_stuck (eph : ℚ → CalcResult) (t d : ℚ)
    (h : ∀ x : ℚ, ¬ |wrapDiff (t - (eph x).lon)| < 0.0001) :
    ∀ (n : ℕ) (jd : ℚ), findSunLoop eph t d n jd = none := by
  intro n
  induction n with
  | zero => intro jd; rfl
  | succ k ih =>
    intro jd
    rw [findSunLoop, if_neg (h jd), ih]

theorem findSun_fallback (eph : ℚ → CalcResult) (target jd d : ℚ)
    (h : ∀ x : ℚ, ¬ |wrapDiff (normalize360 target - (eph x).lon)| < 0.0001) :
    findSunAtLongitude eph target jd d = jd - 88 := by
  rw [findSunAtLongitude, findSunLoop_stuck eph _ d h 200 jd]
  rfl

theorem findSunLoop_succ (eph : ℚ → CalcResult) (t d : ℚ) (n : ℕ) (jd : ℚ) :
    findSunLoop eph t d (Nat.succ n) jd =
      if |wrapDiff (t - (eph jd).lon)| < 0.0001 then some jd
      else findSunLoop eph t d n (jd + wrapDiff (t - (eph jd).lon) * d) := rfl

theorem findSun_first_hit (eph : ℚ → CalcResult) (target jd d : ℚ)
    (h : |wrapDiff (normalize360 target - (eph jd).lon)| < 0.0001) :
    findSunAtLongitude eph target jd d = jd := by
  have h200 : (200 : ℕ) = Nat.succ 199 := rfl
  rw [findSunAtLongitude, h200, findSunLoop_succ, if_pos h]
  rfl

/-! ### Epoch-map lemmas -/

theorem setBody_ne {m : Body → Option GateCode} {b b2 : Body} {g : GateCode}
    (h : b2 ≠ b) : setBody m b g b2 = m b2 := by
  rw [setBody, if_neg h]

theorem setBody_self (m : Body → Option GateCode) (b : Body) (g : GateCode) :
    setBody m b g b = some g := by
  rw [setBody, if_pos rfl]

theorem addBody_ne (provider : Provider) (t : ℚ) (m : Body → Option GateCode)
    {b b2 : Body} (h : b2 ≠ b) : addBody provider t m b b2 = m b2 := by
  rw [addBody]
  by_cases he : (provider t b).error
  · rw [if_pos he]
  · rw [if_neg he, setBody_ne h]

theorem addBody_self (provider : Provider) (t : ℚ) (m : Body → Option GateCode)
    (b : Body) : addBody provider t m b b =
      if (provider t b).error then m b
      else some (longitudeToGate (provider t b).lon) := by
  rw [addBody]
  by_cases he : (provider t b).error
  · rw [if_pos he, if_pos he]
  · rw [if_neg he, if_neg he, setBody_self]

theorem foldl_addBody_not_mem (provider : Provider) (t : ℚ) :
    ∀ (L : List Body) (m : Body → Option GateCode) (b : Body), b ∉ L →
      L.foldl (addBody provider t) m b = m b := by
  intro L
  induction L with
  | nil => intro m b _; rfl
  | cons c rest ih =>
    intro m b hb
    rw [List.foldl_cons, ih _ b (fun hmem => hb (List.mem_cons_of_mem c hmem)),
      addBody_ne provider t m
        (fun hbc => hb (by rw [hbc]; exact List.mem_cons_self c rest))]

theorem foldl_addBody_mem (provider : Provider) (t : ℚ) :
    ∀ (L : List Body) (m : Body → Option GateCode) (b : Body), b ∈ L →
      L.Nodup → m b = none →
      L.foldl (addBody provider t) m b =
        if (provider t b).error then none
        else some (longitudeToGate (provider t b).lon) := by
  intro L
  induction L with
  | nil => intro m b hb; exact absurd hb (List.not_mem_nil b)
  | cons c rest ih =>
    intro m b hb hnd hm
    rcases List.mem_cons.mp hb with hbc | hbr
    · subst hbc
      rw [List.foldl_cons,
        foldl_addBody_not_mem provider t rest _ b (List.Nodup.not_mem hnd),
        addBody_self, hm]
    · have hbc : b ≠ c := by
        rintro rfl
        exact (List.Nodup.not_mem hnd) hbr
      rw [List.foldl_cons]
      refine ih _ b hbr (List.Nodup.of_cons hnd) ?_
      rw [addBody_ne provider t m hbc, hm]

theorem epochPositions_eq (provider : Provider) (t : ℚ) {b : Body}
    (hb : b ∈ PLANETS) : epochPositions provider t b =
      if (provider t b).error then none
      else some (longitudeToGate (provider t b).lon) := by
  refine foldl_addBody_mem provider t PLANETS _ b hb ?_ rfl
  decide

theorem planets_not_derived : ∀ b ∈ PLANETS,
    b ≠ Body.SouthNode ∧ b ≠ Body.Earth := by
  decide

theorem epochPositions_not_mem (provider : Provider) (t : ℚ) {b : Body}
    (hb : b ∉ PLANETS) : epochPositions provider t b = none :=
  foldl_addBody_not_mem provider t PLANETS _ b hb

theorem epochPositions_longitude_nonneg (provider : Provider) (t : ℚ)
    {b : Body} (hb : b ∈ PLANETS) {g : GateCode}
    (h : epochPositions provider t b = some g) : 0 ≤ g.longitude := by
  rw [epochPositions_eq provider t hb] at h
  by_cases he : (provider t b).error = true
  · rw [if_pos he] at h
    exact absurd h (by simp)
  · rw [if_neg he] at h
    rw [← Option.some.inj h, longitudeToGate_longitude]
    exact normalize360_nonneg _

theorem addDerived_ne {m : Body → Option GateCode} {b : Body}
    (h1 : b ≠ Body.SouthNode) (h2 : b ≠ Body.Earth) : addDerived m b = m b := by
  have hSunSN : Body.Sun ≠ Body.SouthNode := by decide
  rw [addDerived]
  rcases hN : m Body.NorthNode with _ | g
  · rcases hS : m Body.Sun with _ | g2
    · simp only [hN, hS]
    · simp only [hN, hS, setBody_ne h2]
  · rcases hS : m Body.Sun with _ | g2
    · simp only [hN, setBody_ne hSunSN, hS, setBody_ne h1]
    · simp only [hN, setBody_ne hSunSN, hS, setBody_ne h2, setBody_ne h1]

theorem addDerived_Earth {m : Body → Option GateCode} {g : GateCode}
    (h : m Body.Sun = some g) : addDerived m Body.Earth =
      some (longitudeToGate (jsMod (g.longitude + 180) 360)) := by
  have hSunSN : Body.Sun ≠ Body.SouthNode := by decide
  rw [addDerived]
  rcases hN : m Body.NorthNode with _ | gn
  · simp only [hN, h, setBody_self]
  · simp only [hN, setBody_ne hSunSN, h, setBody_self]

theorem addDerived_SouthNode {m : Body → Option GateCode} {g : GateCode}
    (h : m Body.NorthNode = some g) : addDerived m Body.SouthNode =
      some (longitudeToGate (jsMod (g.longitude + 180) 360)) := by
  have hSunSN : Body.Sun ≠ Body.SouthNode := by decide
  have hSNE : Body.SouthNode ≠ Body.Earth := by decide
  rw [addDerived]
  simp only [h, setBody_ne hSunSN]
  rcases hS : m Body.Sun with _ | gs
  · simp only [setBody_self]
  · simp only [setBody_ne hSNE, setBody_self]

theorem addDerived_Earth_none {m : Body → Option GateCode}
    (hS : m Body.Sun = none) (hE : m Body.Earth = none) :
    addDerived m Body.Earth = none := by
  have hSunSN : Body.Sun ≠ Body.SouthNode := by decide
  have hESN : Body.Earth ≠ Body.SouthNode := by decide
  rw [addDerived]
  rcases hN : m Body.NorthNode with _ | gn
  · simp only [hN, hS, hE]
  · simp only [hN, setBody_ne hSunSN, hS, setBody_ne hESN, hE]

/-! ### Chart projections -/

theorem chart_birthJd (provider : Provider) (jd : ℚ) :
    (calculateChart provider jd).birthJulianDay = jd := rfl

theorem chart_designJd (provider : Provider) (jd : ℚ) :
    (calculateChart provider jd).designJulianDay =
      findSunAtLongitude (fun t => provider t Body.Sun)
        (normalize360 ((provider jd Body.Sun).lon - 88)) jd (-1) := rfl

theorem chart_personality (provider : Provider) (jd : ℚ) :
    (calculateChart provider jd).personality =
      addDerived (epochPositions provider jd) := rfl

theorem chart_design (provider : Provider) (jd : ℚ) :
    (calculateChart provider jd).design =
      addDerived (epochPositions provider
        (calculateChart provider jd).designJulianDay) := rfl

theorem epochMap_earth (provider : Provider) (t : ℚ) {g : GateCode}
    (h : addDerived (epochPositions provider t) Body.Sun = some g) :
    addDerived (epochPositions provider t) Body.Earth =
      some (longitudeToGate (jsMod (g.longitude + 180) 360)) ∧
    (longitudeToGate (jsMod (g.longitude + 180) 360)).longitude =
      normalize360 (g.longitude + 180) := by
  rw [addDerived_ne (by decide) (by decide)] at h
  have hpos : 0 ≤ g.longitude + 180 := by
    have hl := epochPositions_longitude_nonneg provider t (by decide) h
    linarith
  exact ⟨addDerived_Earth h, by
    rw [longitudeToGate_longitude, normalize360_jsMod hpos]⟩

theorem epochMap_south (provider : Provider) (t : ℚ) {g : GateCode}
    (h : addDerived (epochPositions provider t) Body.NorthNode = some g) :
    addDerived (epochPositions provider t) Body.SouthNode =
      some (longitudeToGate (jsMod (g.longitude + 180) 360)) ∧
    (longitudeToGate (jsMod (g.longitude + 180) 360)).longitude =
      normalize360 (g.longitude + 180) := by
  rw [addDerived_ne (by decide) (by decide)] at h
  have hpos : 0 ≤ g.longitude + 180 := by
    have hl := epochPositions_longitude_nonneg provider t (by decide) h
    linarith
  exact ⟨addDerived_SouthNode h, by
    rw [longitudeToGate_longitude, normalize360_jsMod hpos]⟩

/-! ### Concrete providers used as witnesses -/

/-- An ephemeris whose Sun always sits at longitude `c` and never signals
an error. -/
def ephConst (c : ℚ) : ℚ → CalcResult := fun _ => ⟨false, c⟩

/-- An ephemeris whose every query FAILS, with `data[0]` carrying `c`. -/
def ephConstErr (c : ℚ) : ℚ → CalcResult := fun _ => ⟨true, c⟩

/-- A provider with every body at longitude 100 at time 0 and at 12 at any
other time, so the design-epoch search converges on its second iteration. -/
def provTest : Provider := fun t _ => if t = 0 then ⟨false, 100⟩ else ⟨false, 12⟩

/-- A provider whose every query fails, carrying longitude 0. -/
def provFail : Provider := fun _ _ => ⟨true, 0⟩

/-- A provider failing exactly the Moon query; every other body resolves to
longitude 100. -/
def provPartial : Provider := fun _ b =>
  if b = Body.Moon then ⟨true, 50⟩ else ⟨false, 100⟩

/-! ### Claims about the gate mapper -/

/-- C1: for every real longitude, the computed 64-arc index lies in 0..63,
so the gate field is a defined entry of the permutation table (in exact
arithmetic the wheel position is strictly below 360, so the index never
reaches 64 even though the source has no clamp on it). -/
theorem gate_index_always_valid (l : ℚ) :
    0 ≤ gateIndexOf l ∧ gateIndexOf l ≤ 63 ∧
      (longitudeToGate l).gate = GATE_ORDER.get? (gateIndexOf l).toNat ∧
      ∃ n, (longitudeToGate l).gate = some n ∧ n ∈ GATE_ORDER := by
  have h0 := gateIndexOf_nonneg l
  have h1 := gateIndexOf_lt l
  obtain ⟨n, hn, _, _⟩ := gateAt_spec h0 h1
  have hget : gateAt (gateIndexOf l) = GATE_ORDER.get? (gateIndexOf l).toNat := by
    rw [gateAt, if_pos h0]
  refine ⟨h0, by omega, by rw [longitudeToGate_gate, hget], n,
    by rw [longitudeToGate_gate, hn], ?_⟩
  rw [hget] at hn
  exact List.get?_mem hn

/-- C1 witness: the theorem instantiated at longitude 0. -/
theorem gate_index_always_valid_witness :
    0 ≤ gateIndexOf 0 ∧ gateIndexOf 0 ≤ 63 ∧
      (longitudeToGate 0).gate = GATE_ORDER.get? (gateIndexOf 0).toNat ∧
      ∃ n, (longitudeToGate 0).gate = some n ∧ n ∈ GATE_ORDER :=
  gate_index_always_valid 0

/-- C5 counterexample: the step constants are NOT the exact nested
quotients; already the tone step differs from one sixth of the color
step (0.026041667 is a decimal rounding of 0.15625 / 6 = 0.02604166666...). -/
theorem step_constants_cex :
    ¬ (DEGREES_PER_LINE = DEGREES_PER_GATE / 6 ∧
       DEGREES_PER_COLOR = DEGREES_PER_LINE / 6 ∧
       DEGREES_PER_TONE = DEGREES_PER_COLOR / 6 ∧
       DEGREES_PER_BASE = DEGREES_PER_TONE / 5) := by
  intro h
  have h3 := h.2.2.1
  norm_num [DEGREES_PER_COLOR, DEGREES_PER_TONE] at h3

/-- C5 amended: the line and color steps are exactly the parent step over
the radix, but the tone and base constants are independently rounded
decimal approximations (within 10⁻⁹ of the exact quotients, but not equal
to them). -/
theorem step_constants_amended :
    DEGREES_PER_LINE = DEGREES_PER_GATE / 6 ∧
    DEGREES_PER_COLOR = DEGREES_PER_LINE / 6 ∧
    DEGREES_PER_TONE ≠ DEGREES_PER_COLOR / 6 ∧
    DEGREES_PER_BASE ≠ DEGREES_PER_TONE / 5 ∧
    |DEGREES_PER_TONE - DEGREES_PER_COLOR / 6| < 1 / 10 ^ 9 ∧
    |DEGREES_PER_BASE - DEGREES_PER_TONE / 5| < 1 / 10 ^ 9 := by
  refine ⟨by norm_num [DEGREES_PER_GATE, DEGREES_PER_LINE],
    by norm_num [DEGREES_PER_LINE, DEGREES_PER_COLOR],
    by norm_num [DEGREES_PER_COLOR, DEGREES_PER_TONE],
    by norm_num [DEGREES_PER_TONE, DEGREES_PER_BASE], ?_, ?_⟩ <;>
    rw [abs_sub_lt_iff] <;>
    constructor <;>
    norm_num [DEGREES_PER_COLOR, DEGREES_PER_TONE, DEGREES_PER_BASE]

/-- C7: every field of every gate code is in range: gate in 1..64, line,
color and tone in 1..6, base in 1..5, and both retained angles in
[0, 360). -/
theorem gatecode_ranges (l : ℚ) :
    (∃ n, (longitudeToGate l).gate = some n ∧ 1 ≤ n ∧ n ≤ 64) ∧
    (1 ≤ (longitudeToGate l).line ∧ (longitudeToGate l).line ≤ 6) ∧
    (1 ≤ (longitudeToGate l).color ∧ (longitudeToGate l).color ≤ 6) ∧
    (1 ≤ (longitudeToGate l).tone ∧ (longitudeToGate l).tone ≤ 6) ∧
    (1 ≤ (longitudeToGate l).base ∧ (longitudeToGate l).base ≤ 5) ∧
    (0 ≤ (longitudeToGate l).longitude ∧ (longitudeToGate l).longitude < 360) ∧
    (0 ≤ (longitudeToGate l).wheelPosition ∧
      (longitudeToGate l).wheelPosition < 360) := by
  have hpg0 : 0 ≤ jsMod (wheelPosOf l) DEGREES_PER_GATE :=
    jsMod_nonneg (wheelPosOf_nonneg l) (by norm_num [DEGREES_PER_GATE])
  have hpl0 : 0 ≤ jsMod (jsMod (wheelPosOf l) DEGREES_PER_GATE)
      DEGREES_PER_LINE :=
    jsMod_nonneg hpg0 (by norm_num [DEGREES_PER_LINE])
  have hpc0 : 0 ≤ jsMod (jsMod (jsMod (wheelPosOf l) DEGREES_PER_GATE)
      DEGREES_PER_LINE) DEGREES_PER_COLOR :=
    jsMod_nonneg hpl0 (by norm_num [DEGREES_PER_COLOR])
  have hpt0 : 0 ≤ jsMod (jsMod (jsMod (jsMod (wheelPosOf l)
      DEGREES_PER_GATE) DEGREES_PER_LINE) DEGREES_PER_COLOR)
      DEGREES_PER_TONE :=
    jsMod_nonneg hpc0 (by norm_num [DEGREES_PER_TONE])
  refine ⟨?_, ?_, ?_, ?_, ?_, ?_, ?_⟩
  · obtain ⟨n, hn, h1, h2⟩ := gateAt_spec (gateIndexOf_nonneg l)
      (gateIndexOf_lt l)
    exact ⟨n, by rw [longitudeToGate_gate, hn], h1, h2⟩
  · rw [longitudeToGate_line]
    exact ⟨le_min (floor_digit_nonneg hpg0 (by norm_num [DEGREES_PER_LINE]))
      (by norm_num), min_le_right _ _⟩
  · rw [longitudeToGate_color]
    exact ⟨le_min (floor_digit_nonneg hpl0 (by norm_num [DEGREES_PER_COLOR]))
      (by norm_num), min_le_right _ _⟩
  · rw [longitudeToGate_tone]
    exact ⟨le_min (floor_digit_nonneg hpc0 (by norm_num [DEGREES_PER_TONE]))
      (by norm_num), min_le_right _ _⟩
  · rw [longitudeToGate_base]
    exact ⟨le_min (floor_digit_nonneg hpt0 (by norm_num [DEGREES_PER_BASE]))
      (by norm_num), min_le_right _ _⟩
  · rw [longitudeToGate_longitude]
    exact ⟨normalize360_nonneg l, normalize360_lt l⟩
  · rw [longitudeToGate_wheelPosition]
    exact ⟨wheelPosOf_nonneg l, wheelPosOf_lt l⟩

/-- C7 witness: the theorem instantiated at longitude 301.07, for which
the wheel position lands exactly on the 0-degree gate boundary. -/
theorem gatecode_ranges_witness :
    (∃ n, (longitudeToGate 301.07).gate = some n ∧ 1 ≤ n ∧ n ≤ 64) ∧
    (1 ≤ (longitudeToGate 301.07).line ∧ (longitudeToGate 301.07).line ≤ 6) ∧
    (1 ≤ (longitudeToGate 301.07).color ∧ (longitudeToGate 301.07).color ≤ 6) ∧
    (1 ≤ (longitudeToGate 301.07).tone ∧ (longitudeToGate 301.07).tone ≤ 6) ∧
    (1 ≤ (longitudeToGate 301.07).base ∧ (longitudeToGate 301.07).base ≤ 5) ∧
    (0 ≤ (longitudeToGate 301.07).longitude ∧
      (longitudeToGate 301.07).longitude < 360) ∧
    (0 ≤ (longitudeToGate 301.07).wheelPosition ∧
      (longitudeToGate 301.07).wheelPosition < 360) :=
  gatecode_ranges 301.07

/-- C9: the concrete unit case. Longitude 0 gives wheel position 58.93,
gate arc index floor(58.93 / 5.625) = 10, gate = GATE_ORDER[10] = 25, and
line, color, tone and base agree with the direct nested floor-divide and
remainder computation from the literal step constants. -/
theorem unit_case_longitude_zero :
    wheelPosOf 0 = 58.93 ∧
    gateIndexOf 0 = ⌊(58.93 : ℚ) / 5.625⌋ ∧
    gateIndexOf 0 = 10 ∧
    (longitudeToGate 0).gate = GATE_ORDER.get? 10 ∧
    (longitudeToGate 0).line =
      min (⌊jsMod 58.93 5.625 / 0.9375⌋ + 1) 6 ∧
    (longitudeToGate 0).color =
      min (⌊jsMod (jsMod 58.93 5.625) 0.9375 / 0.15625⌋ + 1) 6 ∧
    (longitudeToGate 0).tone =
      min (⌊jsMod (jsMod (jsMod 58.93 5.625) 0.9375) 0.15625 /
        0.026041667⌋ + 1) 6 ∧
    (longitudeToGate 0).base =
      min (⌊jsMod (jsMod (jsMod (jsMod 58.93 5.625) 0.9375) 0.15625)
        0.026041667 / 0.005208333⌋ + 1) 5 ∧
    (longitudeToGate 0).gate = some 25 ∧
    (longitudeToGate 0).line = 3 ∧
    (longitudeToGate 0).color = 6 ∧
    (longitudeToGate 0).tone = 1 ∧
    (longitudeToGate 0).base = 5 := by
  norm_num [longitudeToGate_gate, longitudeToGate_line, longitudeToGate_color,
    longitudeToGate_tone, longitudeToGate_base, wheelPosOf, gateIndexOf,
    normalizeDeg, normalize360, jsMod, ratTrunc, HD_OFFSET, DEGREES_PER_GATE,
    DEGREES_PER_LINE, DEGREES_PER_COLOR, DEGREES_PER_TONE, DEGREES_PER_BASE,
    gateAt, GATE_ORDER]
  decide

/-- C10: the solver's search target is invariant under adding whole turns:
`findSunAtLongitude` normalises its target on entry, so `target + 360k`
gives the same result as `target` for every integer `k`, every ephemeris,
every start time and either direction. -/
theorem findSun_target_mod_360 (eph : ℚ → CalcResult) (t jd d : ℚ) (k : ℤ) :
    findSunAtLongitude eph (t + 360 * k) jd d =
      findSunAtLongitude eph t jd d := by
  rw [findSunAtLongitude, findSunAtLongitude, normalize360_add_int_mul]

/-! ### Claims about the solver's failure handling -/

/-- C2 counterexample: when the 200-iteration budget is exhausted (here the
Sun never moves off 200 degrees while the target is 0), the solver returns
the bare number `startJd - 88` — a value identical, in type and in value,
to the output of a successfully converged run (second conjunct), so the
result carries no degraded or non-converged mark of any kind. -/
theorem solver_no_flag_cex :
    findSunAtLongitude (ephConst 200) 0 0 (-1) = 0 - 88 ∧
    findSunAtLongitude (ephConst 0) 0 (0 - 88) (-1) = 0 - 88 ∧
    findSunAtLongitude (ephConst 200) 0 0 (-1) =
      findSunAtLongitude (ephConst 0) 0 (0 - 88) (-1) := by
  have h1 : findSunAtLongitude (ephConst 200) 0 0 (-1) = 0 - 88 := by
    refine findSun_fallback _ _ _ _ ?_
    intro x
    norm_num [ephConst, normalize360, jsMod, ratTrunc, wrapDiff]
  have h2 : findSunAtLongitude (ephConst 0) 0 (0 - 88) (-1) = 0 - 88 :=
    findSun_first_hit _ _ _ _ (by
      norm_num [ephConst, normalize360, jsMod, ratTrunc, wrapDiff])
  exact ⟨h1, h2, by rw [h1, h2]⟩

/-- C2 amended: when every iteration stays at least the tolerance away
from the target, the solver returns the deterministic fallback
`startJd - 88`, but as a plain time value with no flag or marker
distinguishing it from a converged result. -/
theorem solver_fallback_unflagged (eph : ℚ → CalcResult) (target jd d : ℚ)
    (h : ∀ x : ℚ, ¬ |wrapDiff (normalize360 target - (eph x).lon)| < 0.0001) :
    findSunAtLongitude eph target jd d = jd - 88 :=
  findSun_fallback eph target jd d h

/-- C2 amended witness: a Sun pinned at 200 degrees with target 5 never
converges, and the call returns 3 - 88. -/
theorem solver_fallback_unflagged_witness :
    findSunAtLongitude (ephConst 200) 5 3 (-1) = 3 - 88 :=
  solver_fallback_unflagged (ephConst 200) 5 3 (-1) (fun x => by
    norm_num [ephConst, normalize360, jsMod, ratTrunc, wrapDiff])

/-- C4 counterexample: the provider signals failure on every iteration,
yet the search does not abort and no error propagates: with the failed
result's data at the target the solver "converges" and returns the start
time (first conjunct), and with it far from the target the solver silently
runs out of budget and DOES fall back to `startJd - 88` (second
conjunct). -/
theorem solver_error_ignored_cex :
    findSunAtLongitude (ephConstErr 272) 272 5 (-1) = 5 ∧
    findSunAtLongitude (ephConstErr 10) 272 7 (-1) = 7 - 88 := by
  constructor
  · refine findSun_first_hit _ _ _ _ ?_
    norm_num [ephConstErr, normalize360, jsMod, ratTrunc, wrapDiff]
  · refine findSun_fallback _ _ _ _ ?_
    intro x
    norm_num [ephConstErr, normalize360, jsMod, ratTrunc, wrapDiff]

/-- C4 amended: the solver never reads the provider's failure flag — its
result depends only on the longitudes the provider returns, so clearing
every error flag changes nothing; a failing provider neither aborts the
search nor suppresses the fallback. -/
theorem solver_ignores_error_flag (eph : ℚ → CalcResult) (target jd d : ℚ) :
    findSunAtLongitude (fun x => ⟨false, (eph x).lon⟩) target jd d =
      findSunAtLongitude eph target jd d := by
  rw [findSunAtLongitude, findSunAtLongitude, findSunLoop_error_free]

/-! ### Claims about the chart builder -/

/-- C3 counterexample: every provider query fails, including the Sun at
the birth epoch, yet `calculateChart` does not abort: it produces a chart
with concrete fields, having pushed the failed query's longitude value (0)
through the design-epoch search (which then falls back to `0 - 88`). -/
theorem birth_sun_failure_not_fatal_cex :
    (provFail 0 Body.Sun).error = true ∧
    (calculateChart provFail 0).birthJulianDay = 0 ∧
    (calculateChart provFail 0).designJulianDay = 0 - 88 ∧
    (calculateChart provFail 0).personality Body.Sun = none ∧
    (calculateChart provFail 0).design Body.Sun = none := by
  refine ⟨rfl, rfl, ?_, ?_, ?_⟩
  · rw [chart_designJd]
    refine findSun_fallback _ _ _ _ ?_
    intro x
    norm_num [provFail, normalize360, jsMod, ratTrunc, wrapDiff]
  · rw [chart_personality, addDerived_ne (by decide) (by decide),
      epochPositions_eq provFail 0 (by decide)]
    rfl
  · rw [chart_design, addDerived_ne (by decide) (by decide),
      epochPositions_eq provFail _ (by decide)]
    rfl

/-- C3 amended: a failed Sun query at the birth epoch is never detected:
`calculateChart` still returns a chart, feeding the failed result's
longitude value into the design-epoch search; the Sun (and hence Earth)
is merely omitted from the personality map by the per-body loop's own
error check. -/
theorem birth_sun_failure_proceeds (provider : Provider) (jd : ℚ)
    (h : (provider jd Body.Sun).error = true) :
    (calculateChart provider jd).birthJulianDay = jd ∧
    (calculateChart provider jd).designJulianDay =
      findSunAtLongitude (fun t => provider t Body.Sun)
        (normalize360 ((provider jd Body.Sun).lon - 88)) jd (-1) ∧
    (calculateChart provider jd).personality Body.Sun = none ∧
    (calculateChart provider jd).personality Body.Earth = none := by
  refine ⟨rfl, rfl, ?_, ?_⟩
  · rw [chart_personality, addDerived_ne (by decide) (by decide),
      epochPositions_eq provider jd (by decide), if_pos h]
  · rw [chart_personality]
    exact addDerived_Earth_none
      (by rw [epochPositions_eq provider jd (by decide), if_pos h])
      (epochPositions_not_mem provider jd (by decide))

/-- C3 amended witness: the all-failing provider at birth time 2. -/
theorem birth_sun_failure_proceeds_witness :
    (calculateChart provFail 2).birthJulianDay = 2 ∧
    (calculateChart provFail 2).designJulianDay =
      findSunAtLongitude (fun t => provFail t Body.Sun)
        (normalize360 ((provFail 2 Body.Sun).lon - 88)) 2 (-1) ∧
    (calculateChart provFail 2).personality Body.Sun = none ∧
    (calculateChart provFail 2).personality Body.Earth = none :=
  birth_sun_failure_proceeds provFail 2 rfl

/-- C6: the opposition law. In both epoch maps of every chart, whenever
the Sun is present, Earth is present and its code is computed by the gate
mapper from the Sun's STORED normalised longitude plus 180 (mod 360) — so
Earth's stored longitude is normalize(Sun + 180); likewise South Node from
the North Node. Neither derived entry involves any provider query. -/
theorem opposition_law (provider : Provider) (jd : ℚ) :
    (∀ g, (calculateChart provider jd).personality Body.Sun = some g →
      (calculateChart provider jd).personality Body.Earth =
        some (longitudeToGate (jsMod (g.longitude + 180) 360)) ∧
      (longitudeToGate (jsMod (g.longitude + 180) 360)).longitude =
        normalize360 (g.longitude + 180)) ∧
    (∀ g, (calculateChart provider jd).personality Body.NorthNode = some g →
      (calculateChart provider jd).personality Body.SouthNode =
        some (longitudeToGate (jsMod (g.longitude + 180) 360)) ∧
      (longitudeToGate (jsMod (g.longitude + 180) 360)).longitude =
        normalize360 (g.longitude + 180)) ∧
    (∀ g, (calculateChart provider jd).design Body.Sun = some g →
      (calculateChart provider jd).design Body.Earth =
        some (longitudeToGate (jsMod (g.longitude + 180) 360)) ∧
      (longitudeToGate (jsMod (g.longitude + 180) 360)).longitude =
        normalize360 (g.longitude + 180)) ∧
    (∀ g, (calculateChart provider jd).design Body.NorthNode = some g →
      (calculateChart provider jd).design Body.SouthNode =
        some (longitudeToGate (jsMod (g.longitude + 180) 360)) ∧
      (longitudeToGate (jsMod (g.longitude + 180) 360)).longitude =
        normalize360 (g.longitude + 180)) := by
  rw [chart_personality, chart_design]
  exact ⟨fun g h => epochMap_earth provider jd h,
    fun g h => epochMap_south provider jd h,
    fun g h => epochMap_earth provider _ h,
    fun g h => epochMap_south provider _ h⟩

/-- C6 witness: with every body at longitude 100 at the birth instant,
the personality Sun is stored and Earth is derived from it. -/
theorem opposition_law_witness :
    (calculateChart provTest 0).personality Body.Earth =
      some (longitudeToGate
        (jsMod ((longitudeToGate 100).longitude + 180) 360)) ∧
    (longitudeToGate
        (jsMod ((longitudeToGate 100).longitude + 180) 360)).longitude =
      normalize360 ((longitudeToGate 100).longitude + 180) :=
  (opposition_law provTest 0).1 (longitudeToGate 100) (by
    rw [chart_personality, addDerived_ne (by decide) (by decide),
      epochPositions_eq provTest 0 (by decide)]
    norm_num [provTest])

/-- C8: the partial-result policy. For each tracked body, a failed query
at an epoch omits exactly that body from that epoch's map, while a
successful query stores its gate code; the chart itself is always
produced, with its birth time field intact. -/
theorem partial_result_policy (provider : Provider) (jd : ℚ) {b : Body}
    (hb : b ∈ PLANETS) :
    (calculateChart provider jd).birthJulianDay = jd ∧
    ((provider jd b).error = true →
      (calculateChart provider jd).personality b = none) ∧
    ((provider jd b).error = false →
      (calculateChart provider jd).personality b =
        some (longitudeToGate (provider jd b).lon)) ∧
    ((provider (calculateChart provider jd).designJulianDay b).error = true →
      (calculateChart provider jd).design b = none) ∧
    ((provider (calculateChart provider jd).designJulianDay b).error = false →
      (calculateChart provider jd).design b =
        some (longitudeToGate
          (provider (calculateChart provider jd).designJulianDay b).lon)) := by
  obtain ⟨hSN, hE⟩ := planets_not_derived b hb
  refine ⟨rfl, ?_, ?_, ?_, ?_⟩
  · intro he
    rw [chart_personality, addDerived_ne hSN hE,
      epochPositions_eq provider jd hb, if_pos he]
  · intro he
    rw [chart_personality, addDerived_ne hSN hE,
      epochPositions_eq provider jd hb,
      if_neg (by rw [he]; exact Bool.false_ne_true)]
  · intro he
    rw [chart_design, addDerived_ne hSN hE,
      epochPositions_eq provider _ hb, if_pos he]
  · intro he
    rw [chart_design, addDerived_ne hSN hE,
      epochPositions_eq provider _ hb,
      if_neg (by rw [he]; exact Bool.false_ne_true)]

/-- C8 witness: with only the Moon failing, the Moon alone is omitted
from the personality map while the Venus query is stored. -/
theorem partial_result_policy_witness :
    (calculateChart provPartial 0).personality Body.Moon = none ∧
    (calculateChart provPartial 0).personality Body.Venus =
      some (longitudeToGate (provPartial 0 Body.Venus).lon) :=
  ⟨(partial_result_policy provPartial 0
      (by decide : Body.Moon ∈ PLANETS)).2.1 rfl,
    (partial_result_policy provPartial 0
      (by decide : Body.Venus ∈ PLANETS)).2.2.1 rfl⟩
